import Mathlib

/-!
Verification of the cash flow ledger core (`src/cashflow.py`).

The embedding below translates the logical core of the program:
the `Transaction` record and its construction-time validation
(`Transaction.__post_init__`), the month-activity predicate
`is_active_in_month`, and the aggregation `calculate_summary`.

Modelling conventions:
* monetary amounts (Python `float`, used as exact monetary quantities by
  the program and its tests) are embedded as `Rat`;
* optional month fields (Python `Optional[str]`) are `Option String`;
  Python truthiness of such a field (`if start:`, `if not self.month:`),
  which is false exactly for `None` and the empty string, is embedded by
  `truthy`;
* Python string comparison (`<`, `>`) is lexicographic on code points,
  which coincides with `String`'s linear order;
* a raised `ValueError` is embedded as `Except.error` carrying a
  `ValidationError` constructor naming the violated rule; the `id`
  field is carried through unchanged (UUID generation is external
  nondeterministic I/O and no claim concerns it).
-/

/-- A transaction record, mirroring the fields of the Python dataclass
`Transaction` in `src/cashflow.py`. -/
structure Transaction where
  description : String
  amount : Rat
  type : String
  recurrence : String
  category : String
  month : Option String
  start_month : Option String
  end_month : Option String
  id : String
deriving DecidableEq

/-- Python truthiness of an `Optional[str]` value: `None` and `""` are
falsy, every non-empty string is truthy. -/
def truthy : Option String → Bool
  | none => false
  | some s => !s.isEmpty

/-- Python's `<` on strings, on the underlying character lists:
the first differing character (by code point) decides, and a proper
prefix is smaller. -/
def charListLt : List Char → List Char → Bool
  | _, [] => false
  | [], _ :: _ => true
  | a :: as, b :: bs =>
    if a.toNat < b.toNat then true
    else if b.toNat < a.toNat then false
    else charListLt as bs

/-- Python's `<` on strings (lexicographic by code point). -/
def strLt (a b : String) : Bool :=
  charListLt a.data b.data

/-- Python's `<=` on strings: for the strict total lexicographic order,
`a <= b` is the negation of `b < a`. -/
def strLe (a b : String) : Bool :=
  !strLt b a

/-- The validation rules checked in `Transaction.__post_init__`, each
constructor naming the violated rule (the `ValueError` message). -/
inductive ValidationError where
  | badType
  | badRecurrence
  | missingMonth
  | missingStartMonth
deriving DecidableEq

/-- Validated construction of a `Transaction`: the checks of
`Transaction.__post_init__`, in source order; a violation raises
(`Except.error`), otherwise the record is returned. -/
def mkTransaction (description : String) (amount : Rat) (type : String)
    (recurrence : String) (category : String) (month : Option String)
    (start_month : Option String) (end_month : Option String)
    (id : String) : Except ValidationError Transaction :=
  if ¬ (type = "inflow" ∨ type = "outflow") then
    Except.error ValidationError.badType
  else if ¬ (recurrence = "one-time" ∨ recurrence = "recurring") then
    Except.error ValidationError.badRecurrence
  else if recurrence = "one-time" ∧ truthy month = false then
    Except.error ValidationError.missingMonth
  else if recurrence = "recurring" ∧ truthy start_month = false then
    Except.error ValidationError.missingStartMonth
  else
    Except.ok { description := description, amount := amount, type := type,
                recurrence := recurrence, category := category, month := month,
                start_month := start_month, end_month := end_month, id := id }

/-- `is_active_in_month(txn, target_month)` from `src/cashflow.py`:
one-time transactions are active exactly in their month; otherwise the
start/end bounds are checked, a falsy bound imposing no constraint. -/
def is_active_in_month (txn : Transaction) (target_month : String) : Bool :=
  if txn.recurrence == "one-time" then
    txn.month == some target_month
  else
    let start := txn.start_month
    let stop := txn.end_month
    if truthy start && strLt target_month (start.getD "") then
      false
    else if truthy stop && strLt (stop.getD "") target_month then
      false
    else
      true

/-- The summary record returned by `calculate_summary`. -/
structure Summary where
  month : String
  opening_balance : Rat
  inflows : Rat
  outflows : Rat
  net : Rat
  closing_balance : Rat
  transactions : List Transaction
deriving DecidableEq

/-- `calculate_summary(data, target_month, opening_balance)` from
`src/cashflow.py`, taking the transaction collection directly. -/
def calculate_summary (transactions : List Transaction) (target_month : String)
    (opening_balance : Rat) : Summary :=
  let active_txns := transactions.filter (fun txn => is_active_in_month txn target_month)
  let inflows := ((active_txns.filter (fun txn => txn.type == "inflow")).map
    (fun txn => txn.amount)).sum
  let outflows := ((active_txns.filter (fun txn => txn.type == "outflow")).map
    (fun txn => txn.amount)).sum
  let net := inflows - outflows
  let closing_balance := opening_balance + net
  { month := target_month, opening_balance := opening_balance, inflows := inflows,
    outflows := outflows, net := net, closing_balance := closing_balance,
    transactions := active_txns }

/-! Concrete transactions used by the witnesses, taken from the scenario
in the repository's test suite. -/

/-- The recurring Salary inflow of the test scenario. -/
def salaryTxn : Transaction :=
  { description := "Salary", amount := 3000, type := "inflow",
    recurrence := "recurring", category := "income", month := none,
    start_month := some "2024-01", end_month := none, id := "1" }

/-- The recurring Rent outflow of the test scenario. -/
def rentTxn : Transaction :=
  { description := "Rent", amount := 1200, type := "outflow",
    recurrence := "recurring", category := "housing", month := none,
    start_month := some "2024-01", end_month := none, id := "2" }

/-- The one-time Vacation outflow of the test scenario. -/
def vacationTxn : Transaction :=
  { description := "Vacation", amount := 500, type := "outflow",
    recurrence := "one-time", category := "fun", month := some "2024-02",
    start_month := none, end_month := none, id := "3" }

/-! Helper lemmas about the lexicographic comparison. -/

/-- No string is below the empty string. -/
theorem charListLt_nil_right : ∀ (a : List Char), charListLt a [] = false
  | [] => rfl
  | _ :: _ => rfl

/-- If `a < b` and `¬ c < b` (so `b ≤ c`) then `a < c`: the transitivity
fact needed about the lexicographic order. -/
theorem charListLt_of_lt_of_not_lt :
    ∀ (b a c : List Char), charListLt a b = true → charListLt c b = false →
      charListLt a c = true := by
  intro b
  induction b with
  | nil =>
    intro a c h1 _
    rw [charListLt_nil_right] at h1
    exact absurd h1 (by simp)
  | cons b0 bs ih =>
    intro a c h1 h2
    cases c with
    | nil => exact absurd h2 (by simp [charListLt])
    | cons c0 cs =>
      cases a with
      | nil => simp [charListLt]
      | cons a0 as =>
        simp only [charListLt] at h1 h2 ⊢
        split_ifs at h1 h2 ⊢
        all_goals first
          | rfl
          | omega
          | (exact ih as cs h1 h2)

/-! The claim theorems. -/

/-- C1: `calculate_summary` echoes the month and opening balance, its
`transactions` field is the in-order sublist of transactions active in
the target month, `inflows`/`outflows` are the sums of amounts of the
active inflow/outflow transactions, `net = inflows - outflows` and
`closing_balance = opening_balance + net`. -/
theorem calculate_summary_correct (transactions : List Transaction)
    (target_month : String) (opening_balance : Rat) :
    (calculate_summary transactions target_month opening_balance).month = target_month ∧
    (calculate_summary transactions target_month opening_balance).opening_balance
      = opening_balance ∧
    (calculate_summary transactions target_month opening_balance).transactions
      = transactions.filter (fun t => is_active_in_month t target_month) ∧
    (calculate_summary transactions target_month opening_balance).inflows
      = ((transactions.filter
            (fun t => t.type == "inflow" && is_active_in_month t target_month)).map
          (fun t => t.amount)).sum ∧
    (calculate_summary transactions target_month opening_balance).outflows
      = ((transactions.filter
            (fun t => t.type == "outflow" && is_active_in_month t target_month)).map
          (fun t => t.amount)).sum ∧
    (calculate_summary transactions target_month opening_balance).net
      = (calculate_summary transactions target_month opening_balance).inflows
        - (calculate_summary transactions target_month opening_balance).outflows ∧
    (calculate_summary transactions target_month opening_balance).closing_balance
      = opening_balance + (calculate_summary transactions target_month opening_balance).net := by
  refine ⟨rfl, rfl, rfl, ?_, ?_, rfl, rfl⟩ <;>
    simp [calculate_summary, List.filter_filter]

/-- C3: a one-time transaction is active exactly in the month equal to
its `month` field (exact string equality, no substring matching). -/
theorem is_active_one_time (t : Transaction) (m : String)
    (h : t.recurrence = "one-time") :
    is_active_in_month t m = true ↔ t.month = some m := by
  simp [is_active_in_month, h]

theorem is_active_one_time_witness :
    is_active_in_month vacationTxn "2024-02" = true ↔ vacationTxn.month = some "2024-02" :=
  is_active_one_time vacationTxn "2024-02" rfl

/-- C5: when no transaction of the collection is active in the target
month (in particular for the empty collection), the summary has zero
inflows, outflows and net, and the closing balance equals the opening
balance. -/
theorem calculate_summary_no_active (transactions : List Transaction)
    (m : String) (ob : Rat)
    (h : ∀ t ∈ transactions, is_active_in_month t m = false) :
    (calculate_summary transactions m ob).inflows = 0 ∧
    (calculate_summary transactions m ob).outflows = 0 ∧
    (calculate_summary transactions m ob).net = 0 ∧
    (calculate_summary transactions m ob).closing_balance = ob := by
  have hfil : transactions.filter (fun t => is_active_in_month t m) = [] := by
    rw [List.filter_eq_nil_iff]
    intro t ht
    simp [h t ht]
  refine ⟨?_, ?_, ?_, ?_⟩ <;> simp [calculate_summary, hfil]

theorem calculate_summary_no_active_witness :
    (calculate_summary [] "2024-02" 200).inflows = 0 ∧
    (calculate_summary [] "2024-02" 200).outflows = 0 ∧
    (calculate_summary [] "2024-02" 200).net = 0 ∧
    (calculate_summary [] "2024-02" 200).closing_balance = 200 :=
  calculate_summary_no_active [] "2024-02" 200 (by simp)

/-- C8: `calculate_summary` is deterministic; its result depends only on
the transaction collection, target month and opening balance. -/
theorem calculate_summary_deterministic (l₁ l₂ : List Transaction)
    (m₁ m₂ : String) (ob₁ ob₂ : Rat)
    (hl : l₁ = l₂) (hm : m₁ = m₂) (hb : ob₁ = ob₂) :
    calculate_summary l₁ m₁ ob₁ = calculate_summary l₂ m₂ ob₂ := by
  rw [hl, hm, hb]

theorem calculate_summary_deterministic_witness :
    calculate_summary [salaryTxn, rentTxn, vacationTxn] "2024-02" 200
      = calculate_summary [salaryTxn, rentTxn, vacationTxn] "2024-02" 200 :=
  calculate_summary_deterministic [salaryTxn, rentTxn, vacationTxn]
    [salaryTxn, rentTxn, vacationTxn] "2024-02" "2024-02" 200 200 rfl rfl rfl

/-- A falsy optional month (`None` or `""`) defaults to the empty
string. -/
theorem getD_empty_of_not_truthy (o : Option String) (h : truthy o = false) :
    o.getD "" = "" := by
  cases o with
  | none => rfl
  | some s =>
    simp only [truthy, Bool.not_eq_false'] at h
    simpa [Option.getD] using (String.isEmpty_iff s).mp h

/-- C2: a transaction in the recurring branch is active in month `m`
exactly when its start bound, if supplied (non-falsy), is at most `m`,
and its end bound, if supplied, is at least `m`; comparisons are
lexicographic on the YYYY-MM strings. -/
theorem is_active_recurring (t : Transaction) (m : String)
    (h : t.recurrence = "recurring") :
    is_active_in_month t m = true ↔
      ((truthy t.start_month = false ∨ strLe (t.start_month.getD "") m = true) ∧
       (truthy t.end_month = false ∨ strLe m (t.end_month.getD "") = true)) := by
  simp only [is_active_in_month, h, strLe]
  cases hs : truthy t.start_month <;> cases he : truthy t.end_month <;>
    cases h1 : strLt m (t.start_month.getD "") <;>
      cases h2 : strLt (t.end_month.getD "") m <;> simp

theorem is_active_recurring_witness :
    is_active_in_month salaryTxn "2024-02" = true ↔
      ((truthy salaryTxn.start_month = false ∨
          strLe (salaryTxn.start_month.getD "") "2024-02" = true) ∧
       (truthy salaryTxn.end_month = false ∨
          strLe "2024-02" (salaryTxn.end_month.getD "") = true)) :=
  is_active_recurring salaryTxn "2024-02" rfl

/-- C6: a recurring transaction whose supplied end month is
lexicographically below its start month is active in no month. -/
theorem is_active_end_before_start (t : Transaction) (m : String)
    (hr : t.recurrence = "recurring")
    (hp : truthy t.end_month = true)
    (hlt : strLt (t.end_month.getD "") (t.start_month.getD "") = true) :
    is_active_in_month t m = false := by
  simp only [is_active_in_month, hr]
  cases hs : truthy t.start_month with
  | false =>
    rw [getD_empty_of_not_truthy _ hs] at hlt
    have : charListLt (t.end_month.getD "").data [] = true := hlt
    rw [charListLt_nil_right] at this
    exact absurd this (by simp)
  | true =>
    cases h1 : strLt m (t.start_month.getD "") with
    | true => simp
    | false =>
      have h2 : strLt (t.end_month.getD "") m = true :=
        charListLt_of_lt_of_not_lt (t.start_month.getD "").data _ _ hlt h1
      simp [h2, hp]

theorem is_active_end_before_start_witness :
    is_active_in_month
      { description := "Gym", amount := 50, type := "outflow",
        recurrence := "recurring", category := "health", month := none,
        start_month := some "2024-03", end_month := some "2024-01", id := "4" }
      "2024-02" = false :=
  is_active_end_before_start
    { description := "Gym", amount := 50, type := "outflow",
      recurrence := "recurring", category := "health", month := none,
      start_month := some "2024-03", end_month := some "2024-01", id := "4" }
    "2024-02" rfl (by decide) (by decide)

/-- C7: permuting the transaction collection leaves the inflows,
outflows, net and closing balance of the summary unchanged. -/
theorem calculate_summary_perm (l₁ l₂ : List Transaction) (m : String) (ob : Rat)
    (h : l₁.Perm l₂) :
    (calculate_summary l₁ m ob).inflows = (calculate_summary l₂ m ob).inflows ∧
    (calculate_summary l₁ m ob).outflows = (calculate_summary l₂ m ob).outflows ∧
    (calculate_summary l₁ m ob).net = (calculate_summary l₂ m ob).net ∧
    (calculate_summary l₁ m ob).closing_balance
      = (calculate_summary l₂ m ob).closing_balance := by
  have key : ∀ ty : String,
      (((l₁.filter (fun t => t.type == ty && is_active_in_month t m)).map
          (fun t => t.amount)).sum : Rat)
        = ((l₂.filter (fun t => t.type == ty && is_active_in_month t m)).map
          (fun t => t.amount)).sum := by
    intro ty
    exact List.Perm.sum_eq ((h.filter _).map _)
  refine ⟨?_, ?_, ?_, ?_⟩ <;>
    simp [calculate_summary, key "inflow", key "outflow"]

theorem calculate_summary_perm_witness :
    (calculate_summary [salaryTxn, vacationTxn] "2024-02" 200).inflows
      = (calculate_summary [vacationTxn, salaryTxn] "2024-02" 200).inflows ∧
    (calculate_summary [salaryTxn, vacationTxn] "2024-02" 200).outflows
      = (calculate_summary [vacationTxn, salaryTxn] "2024-02" 200).outflows ∧
    (calculate_summary [salaryTxn, vacationTxn] "2024-02" 200).net
      = (calculate_summary [vacationTxn, salaryTxn] "2024-02" 200).net ∧
    (calculate_summary [salaryTxn, vacationTxn] "2024-02" 200).closing_balance
      = (calculate_summary [vacationTxn, salaryTxn] "2024-02" 200).closing_balance :=
  calculate_summary_perm [salaryTxn, vacationTxn] [vacationTxn, salaryTxn]
    "2024-02" 200 (List.Perm.swap vacationTxn salaryTxn [])

/-- C4: construction fails exactly when the type is outside
{inflow, outflow}, the recurrence is outside {one-time, recurring}, a
one-time transaction has no (non-falsy) month, or a recurring one has no
start month; when none of the four rules is violated a transaction is
returned. In particular it fails for type "transfer" and for a one-time
transaction without a month. -/
theorem mkTransaction_error_iff (description : String) (amount : Rat)
    (type recurrence category : String)
    (month start_month end_month : Option String) (id : String) :
    ((∃ e, mkTransaction description amount type recurrence category month
        start_month end_month id = Except.error e) ↔
      (¬ (type = "inflow" ∨ type = "outflow") ∨
       ¬ (recurrence = "one-time" ∨ recurrence = "recurring") ∨
       (recurrence = "one-time" ∧ truthy month = false) ∨
       (recurrence = "recurring" ∧ truthy start_month = false))) ∧
    (¬ (¬ (type = "inflow" ∨ type = "outflow") ∨
        ¬ (recurrence = "one-time" ∨ recurrence = "recurring") ∨
        (recurrence = "one-time" ∧ truthy month = false) ∨
        (recurrence = "recurring" ∧ truthy start_month = false)) →
      ∃ t, mkTransaction description amount type recurrence category month
        start_month end_month id = Except.ok t) := by
  unfold mkTransaction
  split_ifs with h1 h2 h3 h4 <;> constructor <;> simp_all

/-- C9: a negative amount is not rejected: whenever the four validation
rules are met, construction succeeds and stores the supplied (negative)
amount unchanged. -/
theorem mkTransaction_negative_amount (description : String) (amount : Rat)
    (type recurrence category : String)
    (month start_month end_month : Option String) (id : String)
    (hneg : amount < 0)
    (h1 : type = "inflow" ∨ type = "outflow")
    (h2 : recurrence = "one-time" ∨ recurrence = "recurring")
    (h3 : recurrence = "one-time" → truthy month = true)
    (h4 : recurrence = "recurring" → truthy start_month = true) :
    ∃ t, mkTransaction description amount type recurrence category month
        start_month end_month id = Except.ok t ∧ t.amount = amount := by
  have hm : ¬ (recurrence = "one-time" ∧ truthy month = false) := by
    rintro ⟨ha, hb⟩
    rw [h3 ha] at hb
    simp at hb
  have hs : ¬ (recurrence = "recurring" ∧ truthy start_month = false) := by
    rintro ⟨ha, hb⟩
    rw [h4 ha] at hb
    simp at hb
  unfold mkTransaction
  rw [if_neg (by tauto), if_neg (by tauto), if_neg hm, if_neg hs]
  exact ⟨_, rfl, rfl⟩

theorem mkTransaction_negative_amount_witness :
    (-5 : Rat) < 0 ∧
    ∃ t, mkTransaction "Refund" (-5) "outflow" "one-time" "misc" (some "2024-02")
        none none "9" = Except.ok t ∧ t.amount = -5 :=
  ⟨by norm_num,
   mkTransaction_negative_amount "Refund" (-5) "outflow" "one-time" "misc"
    (some "2024-02") none none "9" (by norm_num) (Or.inr rfl) (Or.inl rfl)
    (fun _ => by decide) (fun hrec => by simp at hrec)⟩

/-- C10: the presence checks treat an empty-string month field exactly
like a missing one: a one-time transaction with month `""` and a
recurring one with start month `""` fail with the same error as with no
value supplied at all. -/
theorem mkTransaction_empty_like_missing (description : String) (amount : Rat)
    (type category : String) (month start_month end_month : Option String)
    (id : String)
    (htype : type = "inflow" ∨ type = "outflow") :
    mkTransaction description amount type "one-time" category (some "")
        start_month end_month id = Except.error ValidationError.missingMonth ∧
    mkTransaction description amount type "one-time" category none
        start_month end_month id = Except.error ValidationError.missingMonth ∧
    mkTransaction description amount type "recurring" category month (some "")
        end_month id = Except.error ValidationError.missingStartMonth ∧
    mkTransaction description amount type "recurring" category month none
        end_month id = Except.error ValidationError.missingStartMonth := by
  rcases htype with ht | ht <;> subst ht <;>
    exact ⟨by simp +decide [mkTransaction, truthy],
           by simp +decide [mkTransaction, truthy],
           by simp +decide [mkTransaction, truthy],
           by simp +decide [mkTransaction, truthy]⟩

theorem mkTransaction_empty_like_missing_witness :
    mkTransaction "Gift" 25 "inflow" "one-time" "misc" (some "")
        none none "7" = Except.error ValidationError.missingMonth ∧
    mkTransaction "Gift" 25 "inflow" "one-time" "misc" none
        none none "7" = Except.error ValidationError.missingMonth ∧
    mkTransaction "Gift" 25 "inflow" "recurring" "misc" none (some "")
        none "7" = Except.error ValidationError.missingStartMonth ∧
    mkTransaction "Gift" 25 "inflow" "recurring" "misc" none none
        none "7" = Except.error ValidationError.missingStartMonth :=
  mkTransaction_empty_like_missing "Gift" 25 "inflow" "misc" none none none "7"
    (Or.inl rfl)
